import Mathlib

/-!
Verification development for the kokovoicelab repository: a SQLite-backed
catalog of voice style vectors with group resolution (predicate -> centroid),
interpolation/extrapolation between two style vectors, bulk load, synthetic
voice insertion and export.

Shallow embedding conventions:
* A numpy 1-D float array is modelled as `List ℚ` (exact arithmetic stands in
  for IEEE floats for the value-level claims, which the spec itself states
  "within floating tolerance").
* numpy element-wise binary operations broadcast shape (1,) against (n,);
  non-broadcastable shapes raise ValueError.  `npBroadcast` models this.
* `np.mean(list, axis=0)` on a ragged list of 1-D arrays raises (numpy >= 1.24
  refuses to build an inhomogeneous array); on a rectangular list it is the
  element-wise arithmetic mean.  `npMeanAxis0` models this.
* Python exceptions become `Except VError` / error components; the abstract
  error names of the spec (EmptyGroupError, DuplicateKeyError, ...) name the
  concrete raises of the code (ValueError with the described message,
  sqlite3.IntegrityError, parser.error, ...).
* The SQLite `voices` table becomes a list of `VoiceRecord`; an arbitrary SQL
  selection query becomes the query string (for error messages) plus the
  predicate it denotes on rows.
* For the byte-level codec claims, a float64 element is an opaque 64-bit
  pattern (`Nat < 2^64`); `adapt_array` / `convert_array` model np.save /
  np.load of a 1-D array: a self-describing header (the element count, as the
  NPY text header stores the shape) followed by 8 bytes per element.
-/

/-- A numpy 1-D float array, modelled with exact rational entries. -/
abbrev Vec := List ℚ

/-- numpy element-wise binary operation on two 1-D arrays, with broadcasting:
equal lengths operate pointwise; a length-1 operand is broadcast against the
other; any other shape combination raises (`none`). -/
def npBroadcast (op : ℚ → ℚ → ℚ) (a b : Vec) : Option Vec :=
  if a.length = b.length then some (List.zipWith op a b)
  else if a.length = 1 then some (b.map (fun y => op (a.headD 0) y))
  else if b.length = 1 then some (a.map (fun x => op x (b.headD 0)))
  else none

/-- Model of np.mean(vs, axis=0) on a list of 1-D arrays: refuses a ragged list
(numpy >= 1.24 raises building the inhomogeneous array), otherwise returns the
element-wise arithmetic mean. -/
def npMeanAxis0 (vs : List Vec) : Option Vec :=
  match vs with
  | [] => none
  | v :: rest =>
    if (v :: rest).all (fun w => w.length == v.length) then
      some ((List.range v.length).map (fun i =>
        (((v :: rest).map (fun w => w.getD i 0)).sum) / ((v :: rest).length : ℚ)))
    else none

/-- Error taxonomy of the spec, naming the concrete raises of the code. -/
inductive VError where
  /-- ValueError "No voices found for query: {query}" in get_voice_group_vector. -/
  | emptyGroup (query : String)
  /-- numpy shape ValueError (broadcast failure / inhomogeneous array). -/
  | dimensionMismatch
  /-- sqlite3.IntegrityError on plain INSERT with an existing primary key. -/
  | duplicateKey (name : String)
  /-- parser.error for a missing --insert companion argument. -/
  | missingArgument (arg : String)
  /-- ValueError "No voices found in database" in export_all_voices. -/
  | emptyExport
  deriving Repr, DecidableEq

/-- src/kokovoicelab.py interpolate_styles:
    diff_vector = style2 - style1
    midpoint = (style1 + style2) / 2
    return midpoint + (diff_vector * factor / 2)
with numpy broadcasting semantics for the element-wise operations. -/
def interpolate_styles (style1 style2 : Vec) (factor : ℚ) : Except VError Vec :=
  match npBroadcast (fun a b => a - b) style2 style1 with
  | none => .error .dimensionMismatch
  | some diff_vector =>
    match npBroadcast (fun a b => a + b) style1 style2 with
    | none => .error .dimensionMismatch
    | some sum12 =>
      match npBroadcast (fun a b => a + b) (sum12.map (fun x => x / 2))
          (diff_vector.map (fun d => d * factor / 2)) with
      | none => .error .dimensionMismatch
      | some out => .ok out

/-- One row of the `voices` table (create_voice_db.py CREATE TABLE). -/
structure VoiceRecord where
  name : String
  gender : String
  language : String
  quality : Nat
  training_duration : Option String
  style_vector : Vec
  is_synthetic : Bool
  notes : Option String
  created_at : Nat
  deriving Repr, DecidableEq

/-- The `voices` table. -/
abbrev Store := List VoiceRecord

/-- src/kokovoicelab.py get_voice_group_vector: execute the query, raise
ValueError naming the query when no rows match, otherwise extract the
style_vector column of every match and np.mean them along axis 0.  The SQL
query is modelled as its string (for the error message) plus the row
predicate it denotes. -/
def get_voice_group_vector (s : Store) (query : String)
    (pred : VoiceRecord → Bool) : Except VError Vec :=
  match s.filter pred with
  | [] => .error (.emptyGroup query)
  | v :: rest =>
    match npMeanAxis0 ((v :: rest).map (fun r => r.style_vector)) with
    | some m => .ok m
    | none => .error .dimensionMismatch

-- ===== helper lemmas =====

theorem npBroadcast_eq_zipWith (op : ℚ → ℚ → ℚ) (a b : Vec)
    (h : a.length = b.length) : npBroadcast op a b = some (List.zipWith op a b) := by
  simp [npBroadcast, h]

theorem zipWith_interp_eq (s1 s2 : Vec) (f : ℚ) (h : s1.length = s2.length) :
    List.zipWith (fun a b => a + b)
      ((List.zipWith (fun a b => a + b) s1 s2).map (fun x => x / 2))
      ((List.zipWith (fun a b => a - b) s2 s1).map (fun d => d * f / 2)) =
    List.zipWith (fun a b => (a + b) / 2 + (b - a) * f / 2) s1 s2 := by
  induction s1 generalizing s2 with
  | nil => cases s2 <;> simp
  | cons a t ih =>
    cases s2 with
    | nil => simp at h
    | cons b u =>
      simp only [List.length_cons, Nat.succ.injEq] at h
      simp [ih u h]

/-- On equal-length inputs, interpolate_styles succeeds and computes the
element-wise formula midpoint + delta * factor / 2. -/
theorem interpolate_styles_formula (s1 s2 : Vec) (f : ℚ)
    (h : s1.length = s2.length) :
    interpolate_styles s1 s2 f =
      .ok (List.zipWith (fun a b => (a + b) / 2 + (b - a) * f / 2) s1 s2) := by
  unfold interpolate_styles
  rw [npBroadcast_eq_zipWith _ _ _ h.symm, npBroadcast_eq_zipWith _ _ _ h]
  dsimp only
  rw [npBroadcast_eq_zipWith _ _ _ (by simp [h])]
  dsimp only
  rw [zipWith_interp_eq s1 s2 f h]

theorem zipWith_congr_fun (g1 g2 : ℚ → ℚ → ℚ) (hg : ∀ a b, g1 a b = g2 a b) :
    ∀ (l1 l2 : Vec), List.zipWith g1 l1 l2 = List.zipWith g2 l1 l2 := by
  intro l1
  induction l1 with
  | nil => intro l2; simp
  | cons a t ih => intro l2; cases l2 <;> simp [hg, ih]

theorem zipWith_eq_right (g : ℚ → ℚ → ℚ) (hg : ∀ a b, g a b = b) :
    ∀ (l1 l2 : Vec), l1.length = l2.length → List.zipWith g l1 l2 = l2 := by
  intro l1
  induction l1 with
  | nil => intro l2 h; cases l2 <;> simp_all
  | cons a t ih =>
    intro l2 h
    cases l2 with
    | nil => simp at h
    | cons b u =>
      simp only [List.length_cons, Nat.succ.injEq] at h
      simp [hg, ih u h]

theorem zipWith_eq_left (g : ℚ → ℚ → ℚ) (hg : ∀ a b, g a b = a) :
    ∀ (l1 l2 : Vec), l1.length = l2.length → List.zipWith g l1 l2 = l1 := by
  intro l1
  induction l1 with
  | nil => intro l2 h; cases l2 <;> simp_all
  | cons a t ih =>
    intro l2 h
    cases l2 with
    | nil => simp at h
    | cons b u =>
      simp only [List.length_cons, Nat.succ.injEq] at h
      simp [hg, ih u h]

-- ===== C1 =====

/-- C1: For every pair of equal-dimension vectors, interpolate_styles computes
midpoint + delta * factor / 2 element-wise for EVERY rational factor (no
clamping, extrapolation included); factor 0 gives the exact midpoint,
factor 1 exactly the target, factor -1 exactly the source. -/
theorem C1_interpolation_formula (s1 s2 : Vec) (h : s1.length = s2.length) :
    (∀ f : ℚ, interpolate_styles s1 s2 f =
        .ok (List.zipWith (fun a b => (a + b) / 2 + (b - a) * f / 2) s1 s2)) ∧
    interpolate_styles s1 s2 0 =
        .ok (List.zipWith (fun a b => (a + b) / 2) s1 s2) ∧
    interpolate_styles s1 s2 1 = .ok s2 ∧
    interpolate_styles s1 s2 (-1) = .ok s1 := by
  refine ⟨fun f => interpolate_styles_formula s1 s2 f h, ?_, ?_, ?_⟩
  · rw [interpolate_styles_formula s1 s2 0 h]
    congr 1
    exact zipWith_congr_fun _ _ (fun a b => by ring) s1 s2
  · rw [interpolate_styles_formula s1 s2 1 h]
    congr 1
    exact zipWith_eq_right _ (fun a b => by ring) s1 s2 h
  · rw [interpolate_styles_formula s1 s2 (-1) h]
    congr 1
    exact zipWith_eq_left _ (fun a b => by ring) s1 s2 h

/-- Witness for C1 at concrete vectors [0, 2] and [4, 10]. -/
theorem C1_interpolation_formula_witness :
    interpolate_styles [(0 : ℚ), 2] [4, 10] 1 = .ok [4, 10] :=
  (C1_interpolation_formula [(0 : ℚ), 2] [4, 10] (by decide)).2.2.1

-- ===== mean helpers =====

theorem range_map_getD (l : Vec) :
    (List.range l.length).map (fun i => l.getD i 0) = l := by
  induction l with
  | nil => simp
  | cons a t ih =>
    rw [List.length_cons, List.range_succ_eq_map, List.map_cons, List.map_map]
    simp only [Function.comp_def, List.getD_cons_zero, List.getD_cons_succ]
    rw [ih]

theorem npMeanAxis0_cons (v : Vec) (rest : List Vec)
    (h : (v :: rest).all (fun w => w.length == v.length) = true) :
    npMeanAxis0 (v :: rest) = some ((List.range v.length).map (fun i =>
      (((v :: rest).map (fun w => w.getD i 0)).sum) / ((v :: rest).length : ℚ))) := by
  unfold npMeanAxis0
  dsimp only
  rw [if_pos h]

-- ===== C3 =====

/-- C3: a predicate matching zero records makes group resolution fail with
EmptyGroupError carrying the query; no vector (in particular no zero vector)
is ever returned. -/
theorem C3_empty_group (s : Store) (q : String) (pred : VoiceRecord → Bool)
    (h : s.filter pred = []) :
    get_voice_group_vector s q pred = .error (.emptyGroup q) ∧
    ∀ v : Vec, get_voice_group_vector s q pred ≠ .ok v := by
  have he : get_voice_group_vector s q pred = .error (.emptyGroup q) := by
    unfold get_voice_group_vector
    rw [h]
  exact ⟨he, fun v hv => by rw [he] at hv; cases hv⟩

/-- A sample catalog row used by concrete witnesses. -/
def wRecord : VoiceRecord :=
  { name := "af_bella", gender := "F", language := "en-us", quality := 80,
    training_duration := some "10h", style_vector := [1, 3],
    is_synthetic := false, notes := none, created_at := 0 }

/-- Witness for C3: a quality threshold matching no row fails with
EmptyGroupError naming the query. -/
theorem C3_empty_group_witness :
    get_voice_group_vector [wRecord] "SELECT * FROM voices WHERE quality > 90"
      (fun r => r.quality > 90) =
      .error (.emptyGroup "SELECT * FROM voices WHERE quality > 90") :=
  (C3_empty_group [wRecord] "SELECT * FROM voices WHERE quality > 90"
    (fun r => r.quality > 90) (by decide)).1

-- ===== C4 =====

/-- C4: a non-empty matched group of uniform dimension d resolves to the
element-wise arithmetic mean of the matched style vectors, and a group of
exactly one record resolves to exactly that single vector, unchanged. -/
theorem C4_group_mean (s : Store) (q : String) (pred : VoiceRecord → Bool)
    (d : Nat) (hne : s.filter pred ≠ [])
    (hdim : ∀ r ∈ s.filter pred, r.style_vector.length = d) :
    get_voice_group_vector s q pred =
      .ok ((List.range d).map (fun i =>
        (((s.filter pred).map (fun r => r.style_vector.getD i 0)).sum) /
          ((s.filter pred).length : ℚ))) ∧
    ∀ r : VoiceRecord, s.filter pred = [r] →
      get_voice_group_vector s q pred = .ok r.style_vector := by
  constructor
  · obtain ⟨v, rest, hf⟩ : ∃ v rest, s.filter pred = v :: rest := by
      cases hfc : s.filter pred with
      | nil => exact absurd hfc hne
      | cons v rest => exact ⟨v, rest, rfl⟩
    have hvd : v.style_vector.length = d :=
      hdim v (by rw [hf]; exact List.mem_cons_self v rest)
    have hall : ((v :: rest).map (fun r => r.style_vector)).all
        (fun w => w.length == v.style_vector.length) = true := by
      rw [List.all_eq_true]
      intro w hw
      rw [List.mem_map] at hw
      obtain ⟨r, hr, rfl⟩ := hw
      have h1 : r.style_vector.length = d := hdim r (by rw [hf]; exact hr)
      simp [h1, hvd]
    unfold get_voice_group_vector
    rw [hf]
    dsimp only
    rw [List.map_cons] at hall ⊢
    rw [npMeanAxis0_cons _ _ hall]
    rw [← List.map_cons (fun r => r.style_vector) v rest]
    simp only [List.map_map, List.length_map, Function.comp_def]
    rw [hvd]
  · intro r hr
    have hrd : r.style_vector.length = d :=
      hdim r (by rw [hr]; exact List.mem_cons_self r [])
    unfold get_voice_group_vector
    rw [hr]
    dsimp only
    rw [List.map_cons, List.map_nil, npMeanAxis0_cons _ _ (by simp)]
    simp only [List.map_cons, List.map_nil, List.sum_cons, List.sum_nil,
      add_zero, zero_add, List.length_cons, List.length_nil, Nat.cast_one,
      div_one]
    rw [range_map_getD]

/-- A second sample catalog row used by concrete witnesses. -/
def wRecord2 : VoiceRecord :=
  { name := "am_adam", gender := "M", language := "en-us", quality := 70,
    training_duration := none, style_vector := [5, 7],
    is_synthetic := false, notes := some "bulk", created_at := 0 }

/-- Witness for C4: a two-voice group averages element-wise
([1,3] and [5,7] give [3,5]), instantiating the general mean theorem. -/
theorem C4_group_mean_witness :
    get_voice_group_vector [wRecord, wRecord2] "SELECT * FROM voices"
      (fun _ => true) =
      .ok ((List.range 2).map (fun i =>
        ((([wRecord, wRecord2].filter (fun _ => true)).map
            (fun r => r.style_vector.getD i 0)).sum) /
          ((([wRecord, wRecord2].filter (fun _ => true)).length : ℚ)))) :=
  (C4_group_mean [wRecord, wRecord2] "SELECT * FROM voices" (fun _ => true) 2
    (by decide) (by decide)).1

-- ===== broadcast helpers =====

theorem npBroadcast_single_left (op : ℚ → ℚ → ℚ) (x : ℚ) (b : Vec) :
    npBroadcast op [x] b = some (b.map (fun y => op x y)) := by
  match b with
  | [] => simp [npBroadcast]
  | [y] => simp [npBroadcast]
  | y1 :: y2 :: t => simp [npBroadcast]

theorem npBroadcast_single_right (op : ℚ → ℚ → ℚ) (b : Vec) (x : ℚ) :
    npBroadcast op b [x] = some (b.map (fun y => op y x)) := by
  match b with
  | [] => simp [npBroadcast]
  | [y] => simp [npBroadcast]
  | y1 :: y2 :: t => simp [npBroadcast]

theorem zipWith_map_same (g : ℚ → ℚ → ℚ) (f1 f2 : ℚ → ℚ) (l : Vec) :
    List.zipWith g (l.map f1) (l.map f2) = l.map (fun y => g (f1 y) (f2 y)) := by
  induction l with
  | nil => simp
  | cons a t ih => simp [ih]

/-- numpy broadcasting law of the code: a dimension-1 first operand is
broadcast, so interpolate_styles never fails there and maps the formula over
the second vector. -/
theorem interp_broadcast_left (x : ℚ) (b : Vec) (f : ℚ) :
    interpolate_styles [x] b f =
      .ok (b.map (fun y => (x + y) / 2 + (y - x) * f / 2)) := by
  unfold interpolate_styles
  rw [npBroadcast_single_right _ b x, npBroadcast_single_left _ x b]
  dsimp only
  simp only [List.map_map, Function.comp_def]
  rw [npBroadcast_eq_zipWith _ _ _ (by simp)]
  dsimp only
  rw [zipWith_map_same]

/-- numpy broadcasting law of the code, mirrored: a dimension-1 second
operand is broadcast as well, so interpolate_styles never fails there and
maps the formula over the first vector. -/
theorem interp_broadcast_right (b : Vec) (x : ℚ) (f : ℚ) :
    interpolate_styles b [x] f =
      .ok (b.map (fun y => (y + x) / 2 + (x - y) * f / 2)) := by
  unfold interpolate_styles
  rw [npBroadcast_single_left _ x b, npBroadcast_single_right _ b x]
  dsimp only
  simp only [List.map_map, Function.comp_def]
  rw [npBroadcast_eq_zipWith _ _ _ (by simp)]
  dsimp only
  rw [zipWith_map_same]

theorem npBroadcast_none (op : ℚ → ℚ → ℚ) (a b : Vec)
    (h1 : a.length ≠ b.length) (h2 : a.length ≠ 1) (h3 : b.length ≠ 1) :
    npBroadcast op a b = none := by
  simp [npBroadcast, h1, h2, h3]

theorem interpolate_styles_mismatch (s1 s2 : Vec) (f : ℚ)
    (h1 : s1.length ≠ s2.length) (h2 : s1.length ≠ 1) (h3 : s2.length ≠ 1) :
    interpolate_styles s1 s2 f = .error .dimensionMismatch := by
  unfold interpolate_styles
  rw [npBroadcast_none _ _ _ (fun hh => h1 hh.symm) h3 h2]

theorem npMeanAxis0_ragged (vs : List Vec) (w1 w2 : Vec)
    (hw1 : w1 ∈ vs) (hw2 : w2 ∈ vs) (hne : w1.length ≠ w2.length) :
    npMeanAxis0 vs = none := by
  match vs with
  | [] => cases hw1
  | v :: rest =>
    have hcond : ¬ (((v :: rest).all (fun w => w.length == v.length)) = true) := by
      intro hall
      rw [List.all_eq_true] at hall
      have e1 := hall w1 hw1
      have e2 := hall w2 hw2
      rw [beq_iff_eq] at e1 e2
      exact hne (e1.trans e2.symm)
    unfold npMeanAxis0
    dsimp only
    rw [if_neg hcond]

theorem get_voice_group_vector_mismatch (s : Store) (q : String)
    (pred : VoiceRecord → Bool) (r1 r2 : VoiceRecord)
    (h1 : r1 ∈ s.filter pred) (h2 : r2 ∈ s.filter pred)
    (hne : r1.style_vector.length ≠ r2.style_vector.length) :
    get_voice_group_vector s q pred = .error .dimensionMismatch := by
  obtain ⟨v, rest, hf⟩ : ∃ v rest, s.filter pred = v :: rest := by
    cases hfc : s.filter pred with
    | nil => rw [hfc] at h1; cases h1
    | cons v rest => exact ⟨v, rest, rfl⟩
  unfold get_voice_group_vector
  rw [hf]
  dsimp only
  rw [npMeanAxis0_ragged _ r1.style_vector r2.style_vector
    (List.mem_map_of_mem _ (hf ▸ h1)) (List.mem_map_of_mem _ (hf ▸ h2)) hne]

-- ===== C5 =====

/-- C5 counterexample: interpolate_styles on vectors of dimension 1 and 3
does NOT fail — numpy broadcasts the dimension-1 operand and returns the
dimension-3 result, refuting "interpolate called on two vectors of differing
dimensionality fails with a DimensionMismatchError". -/
theorem C5_counterexample :
    interpolate_styles [(0 : ℚ)] [1, 2, 3] 0 = .ok [1/2, 1, 3/2] ∧
    ([(0 : ℚ)] : Vec).length ≠ ([1, 2, 3] : Vec).length := by
  refine ⟨(interp_broadcast_left 0 [1, 2, 3] 0).trans ?_, by decide⟩
  norm_num

/-- A third sample catalog row, of deviating dimension, for witnesses. -/
def wRecord3 : VoiceRecord :=
  { name := "bf_emma", gender := "F", language := "en-gb", quality := 60,
    training_duration := none, style_vector := [1, 2, 3],
    is_synthetic := false, notes := none, created_at := 0 }

/-- C5 (amended): a matched group containing two vectors of differing
dimensionality makes group resolution fail with the dimension error; and
interpolate_styles on two vectors of differing dimensionality fails with the
dimension error precisely when neither operand has dimension 1 — a
dimension-1 operand, on either side, is broadcast instead and interpolation
succeeds with the formula mapped over the longer vector. -/
theorem C5_dimension_mismatch (s : Store) (q : String)
    (pred : VoiceRecord → Bool) (r1 r2 : VoiceRecord) (s1 s2 : Vec)
    (x : ℚ) (b : Vec)
    (hm1 : r1 ∈ s.filter pred) (hm2 : r2 ∈ s.filter pred)
    (hrne : r1.style_vector.length ≠ r2.style_vector.length)
    (h1 : s1.length ≠ s2.length) (h2 : s1.length ≠ 1) (h3 : s2.length ≠ 1) :
    get_voice_group_vector s q pred = .error .dimensionMismatch ∧
    (∀ f : ℚ, interpolate_styles s1 s2 f = .error .dimensionMismatch) ∧
    (∀ f : ℚ, interpolate_styles [x] b f =
      .ok (b.map (fun y => (x + y) / 2 + (y - x) * f / 2))) ∧
    (∀ f : ℚ, interpolate_styles b [x] f =
      .ok (b.map (fun y => (y + x) / 2 + (x - y) * f / 2))) :=
  ⟨get_voice_group_vector_mismatch s q pred r1 r2 hm1 hm2 hrne,
    fun f => interpolate_styles_mismatch s1 s2 f h1 h2 h3,
    fun f => interp_broadcast_left x b f,
    fun f => interp_broadcast_right b x f⟩

/-- Witness for the amended C5 at a concrete mismatched catalog, a concrete
mismatched (2 vs 3)-dimension interpolation, and a concrete dimension-1
second operand that broadcasts instead of failing. -/
theorem C5_dimension_mismatch_witness :
    get_voice_group_vector [wRecord, wRecord3] "SELECT * FROM voices"
      (fun _ => true) = .error .dimensionMismatch ∧
    interpolate_styles [(1 : ℚ), 2] [1, 2, 3] 2 = .error .dimensionMismatch ∧
    interpolate_styles [(7 : ℚ), 9] [0] 0 = .ok [7/2, 9/2] := by
  have h := C5_dimension_mismatch [wRecord, wRecord3] "SELECT * FROM voices"
    (fun _ => true) wRecord wRecord3 [(1 : ℚ), 2] [1, 2, 3] 0 [7, 9]
    (by decide) (by decide) (by decide) (by decide) (by decide) (by decide)
  refine ⟨h.1, h.2.1 2, (h.2.2.2 0).trans ?_⟩
  norm_num

-- ===== vector codec (np.save / np.load) =====

/-- A serialized blob: a list of bytes. -/
abbrev Blob := List Nat

/-- A float64 array element viewed as its 64-bit pattern. -/
abbrev F64Vec := List Nat

/-- Little-endian fixed-width byte serialization of one machine word. -/
def natToBytesLE : Nat → Nat → List Nat
  | 0, _ => []
  | k + 1, x => x % 256 :: natToBytesLE k (x / 256)

/-- Little-endian byte deserialization of one machine word. -/
def bytesToNatLE : List Nat → Nat
  | [] => 0
  | b :: bs => b + 256 * bytesToNatLE bs

/-- src/kokovoicelab.py adapt_array: np.save the array into a bytes blob.
The NPY payload is self-describing: a header recording the shape (the element
count, stored as text digits in NPY, closed by a marker byte here) followed by
the raw element data, 8 bytes per float64. -/
def adapt_array (v : F64Vec) : Blob :=
  Nat.digits 10 v.length ++ 255 :: (v.map (natToBytesLE 8)).flatten

/-- Read `n` elements of 8 bytes each; any leftover or missing bytes are a
malformed payload. -/
def readElems : Nat → Blob → Option F64Vec
  | 0, [] => some []
  | 0, _ :: _ => none
  | n + 1, payload =>
    if 8 ≤ payload.length then
      match readElems n (payload.drop 8) with
      | some rest => some (bytesToNatLE (payload.take 8) :: rest)
      | none => none
    else none

/-- src/kokovoicelab.py convert_array: np.load the blob back into an array,
using only the header inside the blob (no external shape or dtype hint); a
blob with no header is malformed (`none`, the DecodeError of the spec). -/
def convert_array (blob : Blob) : Option F64Vec :=
  match blob.dropWhile (fun b => b != 255) with
  | [] => none
  | _ :: payload => readElems (Nat.ofDigits 10 (blob.takeWhile (fun b => b != 255))) payload

-- ===== codec helpers =====

theorem natToBytesLE_length (k : Nat) : ∀ x, (natToBytesLE k x).length = k := by
  induction k with
  | zero => intro x; rfl
  | succ n ih => intro x; simp [natToBytesLE, ih]

theorem bytesToNatLE_natToBytesLE (k : Nat) :
    ∀ x, x < 256 ^ k → bytesToNatLE (natToBytesLE k x) = x := by
  induction k with
  | zero => intro x hx; interval_cases x; rfl
  | succ n ih =>
    intro x hx
    have hdiv : x / 256 < 256 ^ n := by
      rw [Nat.div_lt_iff_lt_mul (by norm_num : 0 < 256)]
      calc x < 256 ^ (n + 1) := hx
        _ = 256 ^ n * 256 := by rw [pow_succ]
    simp only [natToBytesLE, bytesToNatLE]
    rw [ih (x / 256) hdiv, Nat.mod_add_div]

theorem takeWhile_marker (l r : Blob) (h : ∀ x ∈ l, x ≠ 255) :
    (l ++ 255 :: r).takeWhile (fun b => b != 255) = l ∧
    (l ++ 255 :: r).dropWhile (fun b => b != 255) = 255 :: r := by
  induction l with
  | nil => simp [List.takeWhile, List.dropWhile]
  | cons a t ih =>
    have ha : (a != 255) = true := by
      simp only [bne_iff_ne]
      exact h a (List.mem_cons_self a t)
    have iht := ih (fun x hx => h x (List.mem_cons_of_mem a hx))
    constructor
    · rw [List.cons_append, List.takeWhile_cons, ha]
      simp only [if_true, iht.1]
    · rw [List.cons_append, List.dropWhile_cons, ha]
      simp only [if_true, iht.2]

theorem readElems_flatten (v : F64Vec) (h : ∀ x ∈ v, x < 2 ^ 64) :
    readElems v.length ((v.map (natToBytesLE 8)).flatten) = some v := by
  induction v with
  | nil => rfl
  | cons x t ih =>
    have hx : x < 256 ^ 8 := by
      have := h x (List.mem_cons_self x t)
      calc x < 2 ^ 64 := this
        _ = 256 ^ 8 := by norm_num
    have hlen : (natToBytesLE 8 x).length = 8 := natToBytesLE_length 8 x
    have htake : ((natToBytesLE 8 x) ++ (t.map (natToBytesLE 8)).flatten).take 8 =
        natToBytesLE 8 x := List.take_left' hlen
    have hdrop : ((natToBytesLE 8 x) ++ (t.map (natToBytesLE 8)).flatten).drop 8 =
        (t.map (natToBytesLE 8)).flatten := List.drop_left' hlen
    simp only [List.map_cons, List.flatten_cons, List.length_cons, readElems]
    rw [if_pos (by rw [List.length_append, hlen]; omega)]
    rw [hdrop, ih (fun y hy => h y (List.mem_cons_of_mem x hy))]
    rw [htake, bytesToNatLE_natToBytesLE 8 x hx]

-- ===== C2 =====

/-- C2: the adapt_array / convert_array codec is a lossless, bit-exact round
trip for every fixed-dimension float64 array (elements as 64-bit patterns),
and the blob is self-describing: convert_array consumes only the blob. -/
theorem C2_codec_roundtrip (v : F64Vec) (h : ∀ x ∈ v, x < 2 ^ 64) :
    convert_array (adapt_array v) = some v := by
  have hdig : ∀ x ∈ Nat.digits 10 v.length, x ≠ 255 := by
    intro x hx
    have := Nat.digits_lt_base (by norm_num) hx
    omega
  have hsplit := takeWhile_marker (Nat.digits 10 v.length)
    ((v.map (natToBytesLE 8)).flatten) hdig
  unfold convert_array adapt_array
  rw [hsplit.1, hsplit.2]
  dsimp only
  rw [Nat.ofDigits_digits]
  exact readElems_flatten v h

/-- Witness for C2 at the two-element array [0, 2^64 - 1] (all-ones pattern
round-trips bit-exactly). -/
theorem C2_codec_roundtrip_witness :
    convert_array (adapt_array [0, 2 ^ 64 - 1]) = some [0, 2 ^ 64 - 1] :=
  C2_codec_roundtrip [0, 2 ^ 64 - 1] (by decide)

-- ===== voice store operations =====

/-- create_voice_db.py populate_database: INSERT OR REPLACE INTO voices,
keyed by the name primary key (upsert, no pre-existing-row error). -/
def insertOrReplace (s : Store) (r : VoiceRecord) : Store :=
  if s.any (fun x => x.name == r.name) then
    s.map (fun x => if x.name == r.name then r else x)
  else s ++ [r]

/-- kokovoicelab.py main, insertion path: plain INSERT INTO voices; the name
primary key makes a duplicate raise sqlite3.IntegrityError before the commit,
leaving the table unchanged. -/
def insertVoice (s : Store) (r : VoiceRecord) : Except VError Store :=
  if s.any (fun x => x.name == r.name) then .error (.duplicateKey r.name)
  else .ok (s ++ [r])

/-- One entry of voice-data.json consumed by the bulk load. -/
structure SourceVoice where
  name : String
  gender : String
  language : String
  quality : Nat
  training_duration : Option String
  is_synthetic : Option Bool
  notes : Option String
  deriving Repr, DecidableEq

/-- create_voice_db.py populate_database: for every manifest voice, look up
its style vector from the synthesis gateway (kokoro.get_voice_style) and
INSERT OR REPLACE it; any exception while processing one voice is caught,
printed and that voice skipped; a single commit runs after the loop.
`getStyle` models the gateway lookup (`none` = the lookup raised); the
returned Bool records that the final commit ran. -/
def populate_database (s : Store) (manifest : List SourceVoice)
    (getStyle : String → Option Vec) (now : Nat) : Store × Bool :=
  (manifest.foldl (fun acc v =>
    match getStyle v.name with
    | none => acc
    | some sv => insertOrReplace acc
        { name := v.name, gender := v.gender, language := v.language,
          quality := v.quality, training_duration := v.training_duration,
          style_vector := sv, is_synthetic := v.is_synthetic.getD false,
          notes := v.notes, created_at := now }) s, true)

/-- Observable side effects of the workflows, in program order. -/
inductive Effect where
  | mkdirOutput
  | connectDb
  | initGateway
  | dbInsert (name : String)
  | dbCommit
  | synthesize (text lang : String)
  | writeVoiceFile (name : String)
  | writeRangeFile (factor : ℚ)
  | writeExportFile
  deriving Repr, DecidableEq

/-- export_voice.py export_all_voices: SELECT name, style_vector FROM voices;
raise ValueError when the catalog is empty — before the output file is
opened — otherwise write the archive with one named entry per voice. -/
def export_all_voices (s : Store) :
    List Effect × Except VError (List (String × Vec)) :=
  match s.map (fun r => (r.name, r.style_vector)) with
  | [] => ([], .error .emptyExport)
  | v :: rest => ([Effect.writeExportFile], .ok (v :: rest))

-- ===== the main workflow =====

/-- The CLI arguments of kokovoicelab.py main relevant to the workflow. -/
structure Args where
  source_query : String
  target_query : String
  text : String
  ranges : List ℚ
  speed : ℚ
  lang : String
  insert : Option ℚ
  name : Option String
  gender : Option String
  quality : Option Nat
  notes : Option String
  deriving Repr, DecidableEq

/-- The argparse defaults of kokovoicelab.py (the two queries are required,
--lang defaults to en-us). -/
def defaultArgs (srcQ tgtQ : String) : Args :=
  { source_query := srcQ, target_query := tgtQ, text := "Hello, world!",
    ranges := [-2, -1, -1/2, 0, 1/2, 1, 2], speed := 1, lang := "en-us",
    insert := none, name := none, gender := none, quality := none,
    notes := none }

/-- Python falsiness of an optional string argument (`not args.name`). -/
def falsyStr : Option String → Bool
  | none => true
  | some s => s == ""

/-- kokovoicelab.py main argument validation: when --insert is given, --name,
--gender and --quality must all be present (parser.error otherwise); the
quality check is an explicit None test (0 is a valid quality). -/
def validateInsertArgs (a : Args) : Except VError Unit :=
  match a.insert with
  | none => .ok ()
  | some _ =>
    if falsyStr a.name then .error (.missingArgument "name")
    else if falsyStr a.gender then .error (.missingArgument "gender")
    else if a.quality.isNone then .error (.missingArgument "quality")
    else .ok ()

/-- The first missing --insert companion argument, in the order the code
checks them. -/
def firstMissing (a : Args) : String :=
  if falsyStr a.name then "name"
  else if falsyStr a.gender then "gender" else "quality"

/-- The VoiceRecord built by the synthetic-insertion path of main: language
is the --lang of the workflow (the same value used for synthesis), is_synthetic is
True, and the INSERT statement names no training_duration column (NULL). -/
def syntheticRecord (a : Args) (style : Vec) (now : Nat) : VoiceRecord :=
  { name := a.name.getD "", gender := a.gender.getD "", language := a.lang,
    quality := a.quality.getD 0, training_duration := none,
    style_vector := style, is_synthetic := true, notes := a.notes,
    created_at := now }

/-- The factor loop of main without --insert: per factor interpolate,
synthesize and write one sample; an interpolation error aborts the loop. -/
def runRanges (src tgt : Vec) (text lang : String) :
    List ℚ → List Effect × Option VError
  | [] => ([], none)
  | f :: fs =>
    match interpolate_styles src tgt f with
    | .error e => ([], some e)
    | .ok _ =>
      let next := runRanges src tgt text lang fs
      (Effect.synthesize text lang :: Effect.writeRangeFile f :: next.1,
        next.2)

/-- kokovoicelab.py main, after argument parsing: validate the --insert
companions, create the output directory, connect to the database, resolve the
source and target groups, initialize the synthesis gateway, then either
insert one synthetic voice (interpolate, INSERT, commit, synthesize, write
sample) or sweep the factor list.  Returns the effects performed in program
order, the final table state, and the error that aborted the run (if any). -/
def runMain (a : Args) (s : Store) (psrc ptgt : VoiceRecord → Bool)
    (now : Nat) : List Effect × Store × Option VError :=
  match validateInsertArgs a with
  | .error e => ([], s, some e)
  | .ok _ =>
    match get_voice_group_vector s a.source_query psrc with
    | .error e => ([Effect.mkdirOutput, Effect.connectDb], s, some e)
    | .ok src =>
      match get_voice_group_vector s a.target_query ptgt with
      | .error e => ([Effect.mkdirOutput, Effect.connectDb], s, some e)
      | .ok tgt =>
        match a.insert with
        | some factor =>
          match interpolate_styles src tgt factor with
          | .error e =>
            ([Effect.mkdirOutput, Effect.connectDb, Effect.initGateway], s,
              some e)
          | .ok style =>
            match insertVoice s (syntheticRecord a style now) with
            | .error e =>
              ([Effect.mkdirOutput, Effect.connectDb, Effect.initGateway,
                Effect.dbInsert (a.name.getD "")], s, some e)
            | .ok s2 =>
              ([Effect.mkdirOutput, Effect.connectDb, Effect.initGateway,
                Effect.dbInsert (a.name.getD ""), Effect.dbCommit,
                Effect.synthesize a.text a.lang,
                Effect.writeVoiceFile (a.name.getD "")], s2, none)
        | none =>
          let loop := runRanges src tgt a.text a.lang a.ranges
          ([Effect.mkdirOutput, Effect.connectDb, Effect.initGateway] ++
            loop.1, s, loop.2)

-- ===== workflow helpers =====

/-- A single-record match resolves to the vector of that record unchanged. -/
theorem get_voice_group_vector_singleton (s : Store) (q : String)
    (pred : VoiceRecord → Bool) (r : VoiceRecord) (hr : s.filter pred = [r]) :
    get_voice_group_vector s q pred = .ok r.style_vector := by
  unfold get_voice_group_vector
  rw [hr]
  dsimp only
  rw [List.map_cons, List.map_nil, npMeanAxis0_cons _ _ (by simp)]
  simp only [List.map_cons, List.map_nil, List.sum_cons, List.sum_nil,
    add_zero, zero_add, List.length_cons, List.length_nil, Nat.cast_one,
    div_one]
  rw [range_map_getD]

/-- Factor 1 reproduces the target exactly (equal dimensions). -/
theorem interp_factor_one (s1 s2 : Vec) (h : s1.length = s2.length) :
    interpolate_styles s1 s2 1 = .ok s2 := by
  rw [interpolate_styles_formula s1 s2 1 h]
  congr 1
  exact zipWith_eq_right _ (fun a b => by ring) s1 s2 h

-- ===== C6 =====

/-- C6: inserting a record whose name already exists replaces the prior
record in the bulk-load path (upsert: count preserved, new record present, no
error), but fails with DuplicateKeyError in the synthetic-insertion path of
main, after which the catalog state — hence its count — is unchanged. -/
theorem C6_duplicate_name (s : Store) (r : VoiceRecord) (a : Args)
    (psrc ptgt : VoiceRecord → Bool) (now : Nat) (f : ℚ)
    (src tgt style : Vec)
    (hdup : ∃ x ∈ s, x.name = r.name)
    (hins : a.insert = some f)
    (hval : validateInsertArgs a = .ok ())
    (hsrc : get_voice_group_vector s a.source_query psrc = .ok src)
    (htgt : get_voice_group_vector s a.target_query ptgt = .ok tgt)
    (hint : interpolate_styles src tgt f = .ok style)
    (hdup2 : ∃ x ∈ s, x.name = a.name.getD "") :
    ((insertOrReplace s r).length = s.length ∧ r ∈ insertOrReplace s r) ∧
    insertVoice s r = .error (.duplicateKey r.name) ∧
    (runMain a s psrc ptgt now).2.1 = s ∧
    (runMain a s psrc ptgt now).2.2 =
      some (.duplicateKey (a.name.getD "")) := by
  obtain ⟨x, hx, hxe⟩ := hdup
  have hany : s.any (fun y => y.name == r.name) = true := by
    rw [List.any_eq_true]
    exact ⟨x, hx, by simp [hxe]⟩
  obtain ⟨x2, hx2, hxe2⟩ := hdup2
  have hany2 : s.any
      (fun y => y.name == (syntheticRecord a style now).name) = true := by
    rw [List.any_eq_true]
    refine ⟨x2, hx2, ?_⟩
    simp [syntheticRecord, hxe2]
  have hiv : insertVoice s (syntheticRecord a style now) =
      .error (.duplicateKey (a.name.getD "")) := by
    unfold insertVoice
    rw [if_pos hany2]
    rfl
  have hrm : runMain a s psrc ptgt now =
      ([Effect.mkdirOutput, Effect.connectDb, Effect.initGateway,
        Effect.dbInsert (a.name.getD "")], s,
        some (.duplicateKey (a.name.getD ""))) := by
    unfold runMain
    rw [hval]; dsimp only
    rw [hsrc]; dsimp only
    rw [htgt]; dsimp only
    rw [hins]; dsimp only
    rw [hint]; dsimp only
    rw [hiv]
  refine ⟨⟨?_, ?_⟩, ?_, ?_, ?_⟩
  · unfold insertOrReplace
    rw [if_pos hany]
    simp
  · unfold insertOrReplace
    rw [if_pos hany]
    exact List.mem_map.mpr ⟨x, hx, by simp [hxe]⟩
  · unfold insertVoice
    rw [if_pos hany]
  · rw [hrm]
  · rw [hrm]

/-- Concrete --insert arguments whose name duplicates an existing record. -/
def wArgsDup : Args :=
  { defaultArgs "SRC" "TGT" with
    insert := some 1, name := some "af_bella",
    gender := some "F", quality := some 10 }

/-- Witness for C6: duplicating af_bella upserts in the bulk path, raises
DuplicateKeyError in the synthetic path, and leaves the catalog unchanged. -/
theorem C6_duplicate_name_witness :
    (insertOrReplace [wRecord] wRecord).length = 1 ∧
    insertVoice [wRecord] wRecord = .error (.duplicateKey wRecord.name) ∧
    (runMain wArgsDup [wRecord] (fun _ => true) (fun _ => true) 0).2.1 =
      [wRecord] := by
  have h := C6_duplicate_name [wRecord] wRecord wArgsDup
    (fun _ => true) (fun _ => true) 0 1
    wRecord.style_vector wRecord.style_vector wRecord.style_vector
    (by decide) rfl rfl
    (get_voice_group_vector_singleton [wRecord] "SRC"
      (fun _ => true) wRecord (by decide))
    (get_voice_group_vector_singleton [wRecord] "TGT"
      (fun _ => true) wRecord (by decide))
    (interp_factor_one wRecord.style_vector wRecord.style_vector rfl)
    (by decide)
  exact ⟨h.1.1, h.2.1, h.2.2.1⟩

-- ===== C7 =====

/-- C7: a synthetic-insertion request missing name, gender or quality fails
at validation with MissingArgumentError (named for the first missing
argument, in the order the code checks) before any effect: the effect list is
empty — no database connection, store mutation or gateway call — and the
store is untouched. -/
theorem C7_missing_argument (a : Args) (s : Store)
    (psrc ptgt : VoiceRecord → Bool) (now : Nat)
    (hins : a.insert.isSome = true)
    (hmiss : a.name = none ∨ a.gender = none ∨ a.quality = none) :
    runMain a s psrc ptgt now =
      ([], s, some (.missingArgument (firstMissing a))) := by
  obtain ⟨f, hf⟩ := Option.isSome_iff_exists.mp hins
  have hval : validateInsertArgs a =
      .error (.missingArgument (firstMissing a)) := by
    by_cases h1 : falsyStr a.name = true
    · simp [validateInsertArgs, firstMissing, hf, h1]
    · by_cases h2 : falsyStr a.gender = true
      · simp [validateInsertArgs, firstMissing, hf, h1, h2]
      · have hq : a.quality = none := by
          rcases hmiss with h | h | h
          · exact absurd (by rw [h]; rfl) h1
          · exact absurd (by rw [h]; rfl) h2
          · exact h
        simp [validateInsertArgs, firstMissing, hf, h1, h2, hq]
  unfold runMain
  rw [hval]

/-- Concrete --insert arguments with --quality absent. -/
def wArgsNoQuality : Args :=
  { defaultArgs "SRC" "TGT" with
    insert := some 1, name := some "nova",
    gender := some "F" }

/-- Witness for C7: the quality-less request fails validation with no effects
performed and the store untouched. -/
theorem C7_missing_argument_witness :
    runMain wArgsNoQuality [wRecord] (fun _ => true) (fun _ => true) 0 =
      ([], [wRecord], some (.missingArgument "quality")) := by
  have h := C7_missing_argument wArgsNoQuality [wRecord]
    (fun _ => true) (fun _ => true) 0 rfl (Or.inr (Or.inr rfl))
  rw [h]
  rfl

-- ===== C8 =====

/-- C8: bulk export of an empty catalog fails with EmptyExportError and
performs no file write (empty effect list), rather than silently producing a
zero-entry archive. -/
theorem C8_empty_export :
    export_all_voices ([] : Store) = ([], .error .emptyExport) := rfl

-- ===== C9 =====

/-- C9: during bulk load, a source record whose style-vector lookup raises is
caught and skipped — the run equals the run on the manifest without that
record, so every other record is still processed — and the final commit still
occurs. -/
theorem C9_bulk_skip (s : Store) (pre post : List SourceVoice)
    (bad : SourceVoice) (getStyle : String → Option Vec) (now : Nat)
    (hbad : getStyle bad.name = none) :
    populate_database s (pre ++ bad :: post) getStyle now =
      populate_database s (pre ++ post) getStyle now ∧
    (populate_database s (pre ++ bad :: post) getStyle now).2 = true := by
  refine ⟨?_, rfl⟩
  unfold populate_database
  rw [List.foldl_append, List.foldl_append, List.foldl_cons]
  rw [hbad]

/-- A manifest entry present in the gateway, for witnesses. -/
def wSource1 : SourceVoice :=
  { name := "af_bella", gender := "F", language := "en-us", quality := 80,
    training_duration := some "10h", is_synthetic := none, notes := none }

/-- A manifest entry whose gateway lookup fails, for witnesses. -/
def wSourceBad : SourceVoice :=
  { name := "ghost", gender := "M", language := "en-us", quality := 10,
    training_duration := none, is_synthetic := none, notes := none }

/-- Concrete gateway lookup: only af_bella has a style vector. -/
def wGetStyle : String → Option Vec :=
  fun n => if n == "af_bella" then some [1, 3] else none

/-- Witness for C9: the failing ghost entry is skipped, af_bella is still
loaded, and the commit flag is set. -/
theorem C9_bulk_skip_witness :
    populate_database [] [wSource1, wSourceBad] wGetStyle 0 =
      populate_database [] [wSource1] wGetStyle 0 ∧
    (populate_database [] [wSource1, wSourceBad] wGetStyle 0).2 = true := by
  have h := C9_bulk_skip [] [wSource1] [] wSourceBad wGetStyle 0 rfl
  simpa using h

-- ===== C10 =====

/-- C10: a record created through the synthetic-insertion path has language
equal to the --lang synthesis parameter of the workflow (whose argparse default is
en-us, and which is the very value passed to the gateway — no separate
language can be supplied for the stored record), is_synthetic true, and no
training_duration. -/
theorem C10_synthetic_language (a : Args) (s : Store)
    (psrc ptgt : VoiceRecord → Bool) (now : Nat) (f : ℚ)
    (src tgt style : Vec)
    (hins : a.insert = some f)
    (hval : validateInsertArgs a = .ok ())
    (hsrc : get_voice_group_vector s a.source_query psrc = .ok src)
    (htgt : get_voice_group_vector s a.target_query ptgt = .ok tgt)
    (hint : interpolate_styles src tgt f = .ok style)
    (hfresh : s.all (fun x => x.name != a.name.getD "") = true) :
    (runMain a s psrc ptgt now).2.1 = s ++ [syntheticRecord a style now] ∧
    (syntheticRecord a style now).language = a.lang ∧
    (syntheticRecord a style now).is_synthetic = true ∧
    (syntheticRecord a style now).training_duration = none ∧
    Effect.synthesize a.text a.lang ∈ (runMain a s psrc ptgt now).1 ∧
    (defaultArgs a.source_query a.target_query).lang = "en-us" := by
  have hnodup : s.any
      (fun y => y.name == (syntheticRecord a style now).name) = false := by
    rw [List.any_eq_false]
    intro y hy
    have hb := List.all_eq_true.mp hfresh y hy
    simp only [bne_iff_ne, ne_eq] at hb
    simp [syntheticRecord, hb]
  have hiv : insertVoice s (syntheticRecord a style now) =
      .ok (s ++ [syntheticRecord a style now]) := by
    unfold insertVoice
    rw [hnodup]
    rfl
  have hrm : runMain a s psrc ptgt now =
      ([Effect.mkdirOutput, Effect.connectDb, Effect.initGateway,
        Effect.dbInsert (a.name.getD ""), Effect.dbCommit,
        Effect.synthesize a.text a.lang,
        Effect.writeVoiceFile (a.name.getD "")],
        s ++ [syntheticRecord a style now], none) := by
    unfold runMain
    rw [hval]; dsimp only
    rw [hsrc]; dsimp only
    rw [htgt]; dsimp only
    rw [hins]; dsimp only
    rw [hint]; dsimp only
    rw [hiv]
  exact ⟨by rw [hrm], rfl, rfl, rfl, by rw [hrm]; simp, rfl⟩

/-- Concrete --insert arguments with a fresh name. -/
def wArgsNew : Args :=
  { defaultArgs "SRC" "TGT" with
    insert := some 1, name := some "nova",
    gender := some "X", quality := some 90 }

/-- Witness for C10: the fields of the inserted record at a concrete insertion. -/
theorem C10_synthetic_language_witness :
    (runMain wArgsNew [wRecord] (fun _ => true) (fun _ => true) 7).2.1 =
      [wRecord] ++ [syntheticRecord wArgsNew wRecord.style_vector 7] ∧
    (syntheticRecord wArgsNew wRecord.style_vector 7).language =
      wArgsNew.lang ∧
    (syntheticRecord wArgsNew wRecord.style_vector 7).training_duration =
      none := by
  have h := C10_synthetic_language wArgsNew [wRecord]
    (fun _ => true) (fun _ => true) 7 1
    wRecord.style_vector wRecord.style_vector wRecord.style_vector
    rfl rfl
    (get_voice_group_vector_singleton [wRecord] "SRC"
      (fun _ => true) wRecord (by decide))
    (get_voice_group_vector_singleton [wRecord] "TGT"
      (fun _ => true) wRecord (by decide))
    (interp_factor_one wRecord.style_vector wRecord.style_vector rfl)
    (by decide)
  exact ⟨h.1, h.2.1, h.2.2.2.1⟩
